import Mathlib

/-!
Verification of the sqlx-core runtime-selection and capability-gating layer
(`src/sqlx-core/src/runtime.rs` and `src/sqlx-core/src/blocking/options.rs`).

The Rust code is a compile-time layer: cargo feature switches decide which
backend registrations exist, nested `#[cfg]`-gated type aliases pick a default
runtime, and `where Self: Async` / `where Self: blocking::Runtime` clauses gate
the connect methods.  We embed the build configuration as a record of booleans,
the `cfg` conditions as boolean formulas over it, trait implementations as
decidable predicates over an inductive of the known marker types, and the
method-availability (`where`) clauses as a typing judgment on call sites.
-/

namespace Sqlx

/-- The build-configuration switches (cargo features) consulted by
`runtime.rs`: `async-std`, `tokio`, `actix`, `blocking`. -/
structure Features where
  asyncStd : Bool
  tokio : Bool
  actix : Bool
  blocking : Bool
deriving DecidableEq, Repr

/-- The known runtime marker types: the three asynchronous backends, the
blocking backend, and the inert placeholder `()` used when no backend is
included. -/
inductive Backend
  | asyncStd
  | tokio
  | actix
  | blocking
  | unit
deriving DecidableEq, Repr

/-- The `mod default` block of `runtime.rs`, embedded literally: each
`#[cfg]`-gated `pub type Runtime = ...;` alias contributes its backend to the
list exactly when its `cfg` condition holds.  The conditions, in source order:

1. `feature = "async-std"` selects `AsyncStd`;
2. `all(not(feature = "async-std"), feature = "tokio")` selects `Tokio`;
3. `all(not(all(feature = "async-std", feature = "tokio")), feature = "actix")`
   selects `Actix` (note: `not(all(..))`, not `not(any(..))`);
4. `all(not(any(async-std, tokio, actix)), feature = "blocking")` selects
   `Blocking`;
5. `not(any(async-std, actix, tokio, blocking))` selects `()`.

The build defines one `default::Runtime` alias per element of this list; a
well-formed build needs the list to be a singleton. -/
def defaultRuntimeCandidates (f : Features) : List Backend :=
  (if f.asyncStd then [Backend.asyncStd] else []) ++
  (if !f.asyncStd && f.tokio then [Backend.tokio] else []) ++
  (if !(f.asyncStd && f.tokio) && f.actix then [Backend.actix] else []) ++
  (if !(f.asyncStd || f.tokio || f.actix) && f.blocking then [Backend.blocking] else []) ++
  (if !(f.asyncStd || f.tokio || f.actix || f.blocking) then [Backend.unit] else [])

/-- The selection *documented* on `DefaultRuntime` in `runtime.rs` and in the
spec: first match on the fixed priority list
`AsyncStd > Tokio > Actix > Blocking > ()`.  Kept separate from
`defaultRuntimeCandidates` so the two can be compared. -/
def documentedDefaultRuntime (f : Features) : Backend :=
  if f.asyncStd then Backend.asyncStd
  else if f.tokio then Backend.tokio
  else if f.actix then Backend.actix
  else if f.blocking then Backend.blocking
  else Backend.unit

/-- Every known marker type carries an `impl Runtime`: `()` in `runtime.rs`
itself (in the zero-backend configuration), the backend registrations in their
feature-gated modules. -/
def implsRuntime : Backend → Bool := fun _ => true

/-- Which marker types carry the `Async` marker trait of `runtime.rs`.  The
asynchronous registrations (`AsyncStd`, `Tokio`, `Actix`) implement it; no
`impl Async` exists for `Blocking` or for the placeholder `()` — in
particular `runtime.rs` implements `Runtime` for `()` but not `Async`. -/
def implsAsync : Backend → Bool
  | Backend.asyncStd => true
  | Backend.tokio => true
  | Backend.actix => true
  | Backend.blocking => false
  | Backend.unit => false

/-- Which marker types carry the `blocking::Runtime` marker: the blocking
backend does; the placeholder `()` does not (no such impl appears in
`runtime.rs`). -/
def implsBlockingRuntime : Backend → Bool
  | Backend.blocking => true
  | _ => false

/-- The four gated connection-establishment methods of the `Runtime` trait
(`connect_tcp` and `connect_unix` exist under `feature = "blocking"`,
`connect_tcp_async` and `connect_unix_async` under `feature = "async"`). -/
inductive Method
  | connectTcp
  | connectUnix
  | connectTcpAsync
  | connectUnixAsync
deriving DecidableEq, Repr

/-- Whether a call site `<B as Runtime>::m(..)` type-checks, from the method
signatures in `runtime.rs`: `B` must implement `Runtime`, and the method's
`where` clause must hold for `B` — `Self: blocking::Runtime` for the blocking
methods, `Self: Async` for the asynchronous ones. -/
def callTypeChecks (b : Backend) (m : Method) : Bool :=
  implsRuntime b &&
    match m with
    | Method.connectTcp => implsBlockingRuntime b
    | Method.connectUnix => implsBlockingRuntime b
    | Method.connectTcpAsync => implsAsync b
    | Method.connectUnixAsync => implsAsync b

/-- Possible run-time outcomes of a gated method body: a value, an I/O error,
or a trap (a Rust panic, as produced by `unreachable!()`). -/
inductive Outcome (α : Type)
  | ok (a : α)
  | ioError (msg : String)
  | trap
deriving DecidableEq, Repr

/-- The body of `connect_tcp_async` in `impl Runtime for ()` (`runtime.rs`):
`unreachable!()`, i.e. it traps on any input. -/
def unitConnectTcpAsync (host : String) (port : Nat) : Outcome Unit :=
  Outcome.trap

/-- The body of `connect_unix_async` in `impl Runtime for ()` (`runtime.rs`):
`unreachable!()`, i.e. it traps on any input. -/
def unitConnectUnixAsync (path : String) : Outcome Unit :=
  Outcome.trap

/-- The associated stream types declared by a `Runtime` impl. -/
inductive StreamTy
  | unitStream
  | backendTcp (b : Backend)
  | backendUnix (b : Backend)
deriving DecidableEq, Repr

/-- A `Runtime` impl block: its `TcpStream` and (on Unix platforms)
`UnixStream` associated types. -/
structure RuntimeImpl where
  tcpStream : StreamTy
  unixStream : StreamTy
deriving DecidableEq, Repr

/-- The associated types of each `Runtime` impl.  For `()`, from
`impl Runtime for ()` in `runtime.rs`: `type TcpStream = ();`
`type UnixStream = ();`.  The backend registrations (their modules are outside
`src/`) each declare their own transport types, modelled from the spec. -/
def runtimeImplOf : Backend → RuntimeImpl
  | Backend.unit => { tcpStream := StreamTy.unitStream, unixStream := StreamTy.unitStream }
  | b => { tcpStream := StreamTy.backendTcp b, unixStream := StreamTy.backendUnix b }

/-- The supertrait bounds on the `Runtime` trait declaration
(`pub trait Runtime: 'static + Send + Sync + Sized` in `runtime.rs`). -/
inductive Bound
  | staticLifetime
  | send
  | sync
  | sized
deriving DecidableEq, Repr

/-- The supertrait list of `Runtime`, in declaration order. -/
def runtimeSupertraits : List Bound :=
  [Bound.staticLifetime, Bound.send, Bound.sync, Bound.sized]

/-- A type with auto-trait profile `props` may be registered as a `Runtime`
implementation only when it satisfies every supertrait bound on the trait
declaration. -/
def registrationAdmissible (props : Bound → Bool) : Bool :=
  runtimeSupertraits.all props

/-- The error taxonomy of `crate::Result` as the spec describes it:
parse/validation errors and I/O errors. -/
inductive SqlxError
  | parseError (msg : String)
  | ioError (msg : String)
deriving DecidableEq, Repr

/-- `blocking::ConnectOptions::parse` (`blocking/options.rs`): its body is
`<Self as crate::ConnectOptions<Rt>>::parse(url)` — a delegation to the
generic execution-style-independent contract's parser, which is abstracted
here as the parameter `genericParse`. -/
def blockingConnectOptionsParse {Opt : Type}
    (genericParse : String → Except SqlxError Opt) (url : String) :
    Except SqlxError Opt :=
  genericParse url

/-- Collaborator invocations observable while an operation runs; network I/O
is an invocation of the connect/transport collaborator. -/
inductive Effect
  | connectTcpCall
  | connectUnixCall
deriving DecidableEq, Repr

/-- Modelled from the spec: the generic `crate::ConnectOptions::parse` — the
file declaring it is part of this repository but not under `src/`.  Per spec
section 4.6 it validates the connection string against the backend's expected
schema, returns an options value on success, fails with a parse/validation
error when the string is malformed, and performs no network I/O, so it records
no connect/transport collaborator invocation.  `wellFormed` and `mkOptions`
abstract the backend-specific schema and options shape. -/
def genericParseModel {Opt : Type} (wellFormed : String → Bool)
    (mkOptions : String → Opt) (url : String) :
    Except SqlxError Opt × List Effect :=
  (if wellFormed url then Except.ok (mkOptions url)
   else Except.error (SqlxError.parseError url), [])

/-- The blocking contract's parse with the collaborator-invocation log
threaded through: the delegation in `blocking/options.rs` adds no invocations
of its own on top of the generic parser's. -/
def blockingParseTraced {Opt : Type} (wellFormed : String → Bool)
    (mkOptions : String → Opt) (url : String) :
    Except SqlxError Opt × List Effect :=
  genericParseModel wellFormed mkOptions url

/-- C1: the claim that for every subset of the four switches the resolver
selects exactly one candidate is false on the code.  With `async-std` and
`actix` enabled (and `tokio`, `blocking` disabled), the Actix alias guard
`not(all(async-std, tokio))` is satisfied alongside the AsyncStd branch, so
two `default::Runtime` aliases are defined; the documented priority order
would pick `AsyncStd` alone. -/
theorem default_resolver_double_definition_asyncStd_actix :
    defaultRuntimeCandidates ⟨true, false, true, false⟩ =
      [Backend.asyncStd, Backend.actix] ∧
    (defaultRuntimeCandidates ⟨true, false, true, false⟩).length = 2 ∧
    documentedDefaultRuntime ⟨true, false, true, false⟩ = Backend.asyncStd := by
  decide

/-- C2: every marker type that implements `Runtime` but does not carry the
`Async` marker has its `connect_tcp_async` and `connect_unix_async` call
sites rejected by the typing judgment, i.e. the misuse is a compile-time
error and never reaches a method body. -/
theorem async_methods_rejected_without_async_marker (b : Backend)
    (hr : implsRuntime b = true) (ha : implsAsync b = false) :
    callTypeChecks b Method.connectTcpAsync = false ∧
    callTypeChecks b Method.connectUnixAsync = false := by
  constructor <;> simp [callTypeChecks, ha]

/-- Witness for C2 at the blocking backend, which implements `Runtime` but
not `Async`. -/
theorem async_methods_rejected_without_async_marker_witness :
    callTypeChecks Backend.blocking Method.connectTcpAsync = false ∧
    callTypeChecks Backend.blocking Method.connectUnixAsync = false :=
  async_methods_rejected_without_async_marker Backend.blocking (by decide)
    (by decide)

/-- C3: the placeholder runtime `()` carries no execution-style marker, so no
call to its gated `connect_tcp_async` / `connect_unix_async` type-checks; and
the bodies (`unreachable!()`) trap on every input, never returning a value or
a recoverable error. -/
theorem unit_gated_methods_unreachable (host path : String) (port : Nat) :
    callTypeChecks Backend.unit Method.connectTcpAsync = false ∧
    callTypeChecks Backend.unit Method.connectUnixAsync = false ∧
    unitConnectTcpAsync host port = Outcome.trap ∧
    unitConnectUnixAsync path = Outcome.trap ∧
    (∀ v : Unit, unitConnectTcpAsync host port ≠ Outcome.ok v) ∧
    (∀ m : String, unitConnectTcpAsync host port ≠ Outcome.ioError m) ∧
    (∀ v : Unit, unitConnectUnixAsync path ≠ Outcome.ok v) ∧
    (∀ m : String, unitConnectUnixAsync path ≠ Outcome.ioError m) := by
  refine ⟨by decide, by decide, rfl, rfl, ?_, ?_, ?_, ?_⟩ <;>
    intro x h <;>
    simp [unitConnectTcpAsync, unitConnectUnixAsync] at h

/-- C4: with none of the four backend switches enabled the resolver yields
exactly the inert placeholder `()`, and every gated operation on `()` fails
the typing judgment (build-time rejection), so no runtime panic can be
reached through a type-checked call. -/
theorem zero_backends_resolve_to_placeholder :
    defaultRuntimeCandidates ⟨false, false, false, false⟩ = [Backend.unit] ∧
    callTypeChecks Backend.unit Method.connectTcp = false ∧
    callTypeChecks Backend.unit Method.connectUnix = false ∧
    callTypeChecks Backend.unit Method.connectTcpAsync = false ∧
    callTypeChecks Backend.unit Method.connectUnixAsync = false := by
  decide

/-- C5: for every connection-string URL, the blocking contract's `parse` is
the generic contract's `parse`: the delegation in `blocking/options.rs`
returns the identical result (same options on success, same error on
failure) for every generic parser and every input. -/
theorem blocking_parse_equals_generic_parse {Opt : Type}
    (genericParse : String → Except SqlxError Opt) (url : String) :
    blockingConnectOptionsParse genericParse url = genericParse url :=
  rfl

/-- C6: the resolver is total — for every combination of the four switches at
least one alias branch fires, and with nothing included the floor is the
inert placeholder. -/
theorem default_resolver_total :
    (∀ a t x b : Bool, defaultRuntimeCandidates ⟨a, t, x, b⟩ ≠ []) ∧
    defaultRuntimeCandidates ⟨false, false, false, false⟩ = [Backend.unit] := by
  decide

/-- C7: the monotonicity claim is false on the code.  Starting from the
configuration with only `async-std`, enabling `actix` — which does not
outrank the current choice `AsyncStd` in the documented priority order —
changes the resolver output from the single alias `AsyncStd` to two
conflicting aliases, instead of leaving the default unchanged. -/
theorem enabling_actix_changes_default_without_outranking :
    defaultRuntimeCandidates ⟨true, false, false, false⟩ =
      [Backend.asyncStd] ∧
    defaultRuntimeCandidates ⟨true, false, true, false⟩ ≠
      defaultRuntimeCandidates ⟨true, false, false, false⟩ ∧
    documentedDefaultRuntime ⟨true, false, true, false⟩ =
      documentedDefaultRuntime ⟨true, false, false, false⟩ := by
  decide

/-- C8: for every input string the blocking contract's parse records no
connect/transport collaborator invocation (no network I/O), and on a
malformed connection string it fails with a parse/validation error, not an
I/O error. -/
theorem blocking_parse_no_network_and_parse_error {Opt : Type}
    (wellFormed : String → Bool) (mkOptions : String → Opt) (url : String) :
    (blockingParseTraced wellFormed mkOptions url).2 = [] ∧
    (wellFormed url = false →
      (blockingParseTraced wellFormed mkOptions url).1 =
        Except.error (SqlxError.parseError url) ∧
      ∀ m : String, (blockingParseTraced wellFormed mkOptions url).1 ≠
        Except.error (SqlxError.ioError m)) := by
  refine ⟨rfl, fun hmal => ?_⟩
  simp [blockingParseTraced, genericParseModel, hmal]

/-- Witness for C8 at a parser that rejects every string, applied to the
input `"mysql"`. -/
theorem blocking_parse_no_network_and_parse_error_witness :
    (blockingParseTraced (fun _ => false) (fun _ => ()) "mysql").2 = [] ∧
    (blockingParseTraced (fun _ => false) (fun _ => ()) "mysql").1 =
      Except.error (SqlxError.parseError "mysql") :=
  ⟨(blocking_parse_no_network_and_parse_error (fun _ => false) (fun _ => ())
      "mysql").1,
   ((blocking_parse_no_network_and_parse_error (fun _ => false) (fun _ => ())
      "mysql").2 rfl).1⟩

/-- C9: the `Runtime` trait declaration obliges every registration to satisfy
all four supertrait bounds: a type admissible as a `Runtime` implementation is
necessarily `'static`, `Send`, `Sync`, and `Sized`. -/
theorem runtime_registration_requires_all_bounds (props : Bound → Bool)
    (h : registrationAdmissible props = true) :
    props Bound.staticLifetime = true ∧ props Bound.send = true ∧
    props Bound.sync = true ∧ props Bound.sized = true := by
  simp [registrationAdmissible, runtimeSupertraits] at h
  exact ⟨h.1, h.2.1, h.2.2.1, h.2.2.2⟩

/-- Witness for C9 at the profile satisfying every bound. -/
theorem runtime_registration_requires_all_bounds_witness :
    (fun _ : Bound => true) Bound.staticLifetime = true ∧
    (fun _ : Bound => true) Bound.send = true ∧
    (fun _ : Bound => true) Bound.sync = true ∧
    (fun _ : Bound => true) Bound.sized = true :=
  runtime_registration_requires_all_bounds (fun _ => true) (by decide)

/-- C10: in the zero-backend configuration the resolved default is the
placeholder `()`, it still carries a `Runtime` implementation, and both of
its associated stream types (`TcpStream`, and `UnixStream` on Unix platforms)
are the unit type, so the capability surface stays fully defined. -/
theorem placeholder_streams_are_unit :
    defaultRuntimeCandidates ⟨false, false, false, false⟩ = [Backend.unit] ∧
    implsRuntime Backend.unit = true ∧
    (runtimeImplOf Backend.unit).tcpStream = StreamTy.unitStream ∧
    (runtimeImplOf Backend.unit).unixStream = StreamTy.unitStream := by
  decide

end Sqlx
